import Mathlib

/-!
Shallow embedding of the core of the naver_blog_autopilot repository
(humanizer / SEO scorer / quality checker / anti-detection publish gate),
with theorems checking the natural-language specification against it.

Modelling conventions:
* Python `str` is modelled by `String` / `List Char` (code points).
* Python machine integers are `Int`/`Nat` (Python ints are unbounded anyway).
* Python floats are modelled by exact rationals `ℚ`; threshold comparisons
  (0.2, 0.3, 0.6, 0.85, ...) are translated to exact rational comparisons.
* Python `re` is modelled by a small backtracking matcher (`RE`, below) with
  Python's preference order (leftmost match, greedy/lazy quantifiers);
  `re.findall` counting is leftmost non-overlapping.
* Fallible code returns `Except`/`Option`; a caught exception takes the
  `except` branch of the translation.
* External collaborators (the LLM rewrite API, the database) enter as
  explicit parameters (`Option String` for an API response, lists of rows
  for query results, `Except` for a failing query).
-/

namespace NBA

/-- Python `\s` on the ASCII range (space, tab, newline, CR, VT, FF). -/
def pyWsChar (c : Char) : Bool :=
  c = ' ' || c = '\t' || c = '\n' || c = '\r' || c = '\x0b' || c = '\x0c'

/-- Check that `pat` is a prefix of `s` (character lists). -/
def listStartsWith : List Char → List Char → Bool
  | [], _ => true
  | _ :: _, [] => false
  | p :: ps, c :: cs => p = c && listStartsWith ps cs

/-- Python `pat in s` substring containment. -/
def containsSub (pat : List Char) : List Char → Bool
  | [] => pat.isEmpty
  | c :: cs => listStartsWith pat (c :: cs) || containsSub pat cs

/-- Auxiliary loop for `countSub`, fuelled by the text length. -/
def countSubAux (pat : List Char) : ℕ → List Char → ℕ
  | 0, _ => 0
  | _ + 1, [] => 0
  | f + 1, c :: cs =>
    if listStartsWith pat (c :: cs) then
      1 + countSubAux pat f ((c :: cs).drop pat.length)
    else
      countSubAux pat f cs

/-- Python `s.count(pat)`: leftmost non-overlapping occurrence count
(`s.count("")` is `len(s) + 1`, as in Python). -/
def countSub (pat s : List Char) : ℕ :=
  if pat.isEmpty then s.length + 1 else countSubAux pat s.length s

/-- Auxiliary loop for `splitOnSub`, fuelled by the text length. -/
def splitOnSubAux (sep : List Char) : ℕ → List Char → List Char → List (List Char)
  | 0, accRev, s => [accRev.reverse ++ s]
  | _ + 1, accRev, [] => [accRev.reverse]
  | f + 1, accRev, c :: cs =>
    if listStartsWith sep (c :: cs) then
      accRev.reverse :: splitOnSubAux sep f [] ((c :: cs).drop sep.length)
    else
      splitOnSubAux sep f (c :: accRev) cs

/-- Python `s.split(sep)` for a non-empty separator. -/
def splitOnSub (sep s : List Char) : List (List Char) :=
  splitOnSubAux sep s.length [] s

/-- Split into lines at `\n` (used for MULTILINE `^`/`$` semantics). -/
def splitLines (s : List Char) : List (List Char) :=
  splitOnSub ['\n'] s

/-- Python `s.strip()` (whitespace strip on both ends). -/
def pyStrip (s : List Char) : List Char :=
  ((s.dropWhile pyWsChar).reverse.dropWhile pyWsChar).reverse

/-- Auxiliary loop for `wordsOf`, fuelled by the text length. -/
def wordsOfAux : ℕ → List Char → List (List Char)
  | 0, _ => []
  | _ + 1, [] => []
  | f + 1, c :: cs =>
    if pyWsChar c then wordsOfAux f cs
    else
      let w := (c :: cs).takeWhile (fun d => !pyWsChar d)
      let rest := (c :: cs).dropWhile (fun d => !pyWsChar d)
      w :: wordsOfAux f rest

/-- Python `s.split()` with no argument: whitespace runs, empties dropped. -/
def wordsOf (s : List Char) : List (List Char) :=
  wordsOfAux s.length s

/-- ASCII lowercasing, modelling Python `str.lower` on the alphabets used
here (ASCII letters; Korean has no case). -/
def lowerList (s : List Char) : List Char :=
  s.map Char.toLower

/-- Rational addition written through `Rat.divInt` so that it evaluates by
kernel reduction (proved equal to `+` in `qAdd_eq`). -/
def qAdd (a b : ℚ) : ℚ :=
  Rat.divInt (a.num * b.den + b.num * a.den) (a.den * b.den)

/-- Computable rational subtraction (see `qSub_eq`). -/
def qSub (a b : ℚ) : ℚ :=
  Rat.divInt (a.num * b.den - b.num * a.den) (a.den * b.den)

/-- Computable rational multiplication (see `qMul_eq`). -/
def qMul (a b : ℚ) : ℚ :=
  Rat.divInt (a.num * b.num) (a.den * b.den)

/-- Computable rational division (see `qDiv_eq`). -/
def qDiv (a b : ℚ) : ℚ :=
  Rat.divInt (a.num * b.den) (a.den * b.num)

/-- Regular expressions, as used by the repository's patterns: character
classes, concatenation, ordered alternation, greedy and lazy star. -/
inductive RE where
  | eps : RE
  | cls (p : Char → Bool) : RE
  | cat (r s : RE) : RE
  | alt (r s : RE) : RE
  | starG (r : RE) : RE
  | starL (r : RE) : RE

/-- Syntactic size of a regex, used to compute a sufficient fuel. -/
def sizeRE : RE → ℕ
  | .eps => 1
  | .cls _ => 1
  | .cat r s => sizeRE r + sizeRE s + 1
  | .alt r s => sizeRE r + sizeRE s + 1
  | .starG r => sizeRE r + 1
  | .starL r => sizeRE r + 1

/-- Literal character as a regex. -/
def chR (c : Char) : RE := .cls (fun d => d = c)

/-- Literal string as a regex. -/
def litR (s : String) : RE :=
  s.data.foldr (fun c r => .cat (chR c) r) .eps

/-- Case-insensitive literal (`re.IGNORECASE`, ASCII model). -/
def litCI (s : String) : RE :=
  s.data.foldr (fun c r => .cat (.cls (fun d => d.toLower = c.toLower)) r) .eps

/-- Ordered alternation of a non-empty list of regexes. -/
def altList : List RE → RE
  | [] => .eps
  | [r] => r
  | r :: rs => .alt r (altList rs)

/-- Greedy `r?`. -/
def optR (r : RE) : RE := .alt r .eps

/-- Greedy `r+`. -/
def plusR (r : RE) : RE := .cat r (.starG r)

/-- Greedy `r{0,n}`. -/
def upToR (r : RE) : ℕ → RE
  | 0 => .eps
  | n + 1 => .alt (.cat r (upToR r n)) .eps

/-- Greedy bounded repetition `r{m,n}`. -/
def repR (r : RE) (m n : ℕ) : RE :=
  (List.replicate m r).foldr .cat (upToR r (n - m))

/-- Python `\s` character class as a regex. -/
def wsR : RE := .cls pyWsChar

/-- Python `\s+`. -/
def wsPlus : RE := plusR wsR

/-- Python `\s*`. -/
def wsStar : RE := .starG wsR

/-- Python `.` (any character except newline). -/
def dotR : RE := .cls (fun c => c ≠ '\n')

/-- Backtracking matcher in continuation-passing style.  The continuation
receives the rest of the input; alternatives are tried in Python's
preference order (left branch first, greedy star consumes first, lazy star
consumes last).  The fuel bounds the call depth and is chosen large enough
for every use below. -/
def reM : ℕ → RE → List Char → (List Char → Option ℕ) → Option ℕ
  | 0, _, _, _ => none
  | _ + 1, .eps, s, k => k s
  | _ + 1, .cls p, s, k =>
    match s with
    | [] => none
    | c :: cs => if p c then k cs else none
  | f + 1, .cat r₁ r₂, s, k => reM f r₁ s (fun t => reM f r₂ t k)
  | f + 1, .alt r₁ r₂, s, k =>
    (reM f r₁ s k).orElse (fun _ => reM f r₂ s k)
  | f + 1, .starG r, s, k =>
    (reM f r s (fun t =>
      if t.length < s.length then reM f (.starG r) t k else none)).orElse
      (fun _ => k s)
  | f + 1, .starL r, s, k =>
    (k s).orElse (fun _ =>
      reM f r s (fun t =>
        if t.length < s.length then reM f (.starL r) t k else none))

/-- Fuel sufficient for matching `r` against `s`. -/
def reFuel (r : RE) (s : List Char) : ℕ :=
  (sizeRE r + 2) * (s.length + 2)

/-- Try to match `r` at the start of `s`; returns the length of the
remaining input after the (preference-first) match. -/
def reMatchAt (r : RE) (s : List Char) : Option ℕ :=
  reM (reFuel r s) r s (fun t => some t.length)

/-- Auxiliary loop for `reHasMatch`. -/
def reHasMatchAux (r : RE) : ℕ → List Char → Bool
  | 0, s => (reMatchAt r s).isSome
  | f + 1, s =>
    match reMatchAt r s with
    | some _ => true
    | none =>
      match s with
      | [] => false
      | _ :: t => reHasMatchAux r f t

/-- Python `re.search(r, s)` viewed as a boolean (a match exists somewhere). -/
def reHasMatch (r : RE) (s : List Char) : Bool :=
  reHasMatchAux r s.length s

/-- Auxiliary loop for `reCount`: leftmost non-overlapping matches. -/
def reCountAux (r : RE) : ℕ → List Char → ℕ
  | 0, _ => 0
  | f + 1, s =>
    match reMatchAt r s with
    | some rem =>
      let consumed := s.length - rem
      if consumed = 0 then
        match s with
        | [] => 1
        | _ :: t => 1 + reCountAux r f t
      else
        1 + reCountAux r f (s.drop consumed)
    | none =>
      match s with
      | [] => 0
      | _ :: t => reCountAux r f t

/-- Python `len(re.findall(r, s))`: number of leftmost non-overlapping
matches. -/
def reCount (r : RE) (s : List Char) : ℕ :=
  reCountAux r (s.length + 1) s

/-- Auxiliary loop for `reSubCounted`. -/
def reSubCountedAux (r : RE) (repl : ℕ → List Char → List Char) :
    ℕ → ℕ → List Char → List Char
  | 0, _, s => s
  | _ + 1, _, [] => []
  | f + 1, idx, c :: cs =>
    match reMatchAt r (c :: cs) with
    | some rem =>
      let consumed := (c :: cs).length - rem
      if consumed = 0 then
        c :: reSubCountedAux r repl f idx cs
      else
        repl idx ((c :: cs).take consumed) ++
          reSubCountedAux r repl f (idx + 1) ((c :: cs).drop consumed)
    | none => c :: reSubCountedAux r repl f idx cs

/-- Python `re.sub(r, fn, s)` where `fn` is a stateful replacement closure
numbering the matches from 0 (as the repository's `quick_fix_patterns`
does). -/
def reSubCounted (r : RE) (repl : ℕ → List Char → List Char) (s : List Char) :
    List Char :=
  reSubCountedAux r repl (s.length + 1) 0 s

/-- Concatenation of a list of regexes. -/
def catList : List RE → RE
  | [] => .eps
  | [r] => r
  | r :: rs => .cat r (catList rs)

/-- Hangul syllable character class (the Python class `[가-힣]`). -/
def hangulR : RE :=
  .cls (fun c => 0xAC00 ≤ c.toNat && c.toNat ≤ 0xD7A3)

/-- Sentence-final punctuation-or-whitespace class (`[.!?\s]`). -/
def endPunctWs : RE :=
  .cls (fun c => c = '.' || c = '!' || c = '?' || pyWsChar c)

/-!  `modules/generator/humanizer.py` -/

/-- The eleven `AI_CLICHE_PATTERNS` regexes with their category labels,
transliterated from `humanizer.py`. -/
def aiClichePatterns : List (RE × String) :=
  [ (catList [litR "오늘은", wsPlus, repR dotR 5 30, litR "에", wsPlus,
      litR "대해", wsPlus,
      altList [litR "알아보겠습니다", litR "살펴보겠습니다"]], "도입부 상투어"),
    (catList [altList [catList [litR "많은", wsPlus, litR "분들이"],
        catList [litR "많은", wsPlus, litR "실무자들이"]], wsPlus,
      altList [litR "궁금해하시는", litR "헷갈려하시는", litR "고민하시는"]],
      "도입부 상투어"),
    (catList [litR "이번", wsPlus, altList [litR "포스팅", litR "글"],
      litR "에서는", wsPlus, repR dotR 5 30,
      altList [litR "정리해", litR "알아보", litR "살펴보"]], "도입부 상투어"),
    (catList [altList [litR "그렇다면", litR "그럼", litR "그러면"], wsPlus,
      altList [litR "지금부터", litR "이제"], wsPlus,
      altList [litR "하나씩", litR "자세히", litR "본격적으로"], wsPlus,
      altList [litR "알아보", litR "살펴보", litR "확인해"]], "전환 상투어"),
    (catList [optR (catList [litR "자", optR (chR ','), wsStar]),
      altList [litR "그러면", litR "그럼"], wsPlus,
      altList [litR "구체적으로", litR "실질적으로"], wsPlus,
      altList [litR "어떤", litR "어떻게"]], "전환 상투어"),
    (catList [altList [litR "지금까지", litR "이상으로"], wsPlus,
      repR dotR 5 30, litR "에", wsPlus, litR "대해", wsPlus,
      altList [litR "알아보았습니다", litR "살펴보았습니다",
        litR "정리해보았습니다"]], "마무리 상투어"),
    (catList [altList [catList [litR "도움이", wsPlus, litR "되셨으면"],
        catList [litR "도움이", wsPlus, litR "되었으면"]], wsPlus,
      altList [litR "좋겠습니다", litR "합니다"]], "마무리 상투어"),
    (catList [altList [catList [litR "궁금한", wsPlus, litR "점",
          optR (chR '이'), wsPlus, litR "있으시면"],
        catList [litR "질문이", wsPlus, litR "있으시면"]], wsPlus,
      altList [litR "댓글", litR "문의"]], "마무리 상투어"),
    (catList [altList [catList [litR "걱정하지", wsPlus, litR "마세요"],
        catList [litR "걱정", wsPlus, litR "마세요"]],
      optR (.cls (fun c => c = '!' || c = '.')), wsPlus,
      altList [litR "지금부터", litR "아래에서",
        catList [litR "이", wsPlus, litR "글에서"]]], "과잉 친절"),
    (catList [altList [litR "쉽게", litR "한눈에", litR "완벽하게"], wsPlus,
      altList [litR "정리해", litR "알려"], wsStar,
      altList [litR "드리겠습니다", litR "드릴게요"]], "과잉 친절"),
    (catList [altList [litR "첫째", catList [litR "첫", wsStar, litR "번째"]],
      optR (.cls (fun c => c = ',' || c = '.')), wsPlus, repR dotR 10 50,
      chR '\n', .starL dotR,
      altList [litR "둘째", catList [litR "두", wsStar, litR "번째"]],
      optR (.cls (fun c => c = ',' || c = '.')), wsPlus, repR dotR 10 50,
      chR '\n', .starL dotR,
      altList [litR "셋째", catList [litR "세", wsStar, litR "번째"]]],
      "나열형 반복") ]

/-- The `AI_OVERUSED_CONNECTORS` vocabulary. -/
def aiOverusedConnectors : List String :=
  ["또한", "특히", "따라서", "그러므로", "결론적으로",
   "무엇보다", "이처럼", "이렇게", "즉,", "다시 말해",
   "한편", "아울러", "뿐만 아니라", "나아가", "더불어"]

/-- The `ai_direct_phrases` list (phrase, severity); the middle tuple
component of the source is a constant label that `add_issue` does not use. -/
def aiDirectPhrases : List (String × ℤ) :=
  [("정리해드리겠습니다", 3), ("살펴보겠습니다", 3), ("알아보겠습니다", 3),
   ("결론부터 말씀드리면", 3), ("함께 알아보", 2), ("하나씩 살펴보", 2),
   ("꼼꼼히 정리해", 2), ("완벽 정리", 2), ("총정리", 2)]

/-- Personal-experience marker phrases (`personal_markers`). -/
def personalMarkers : List String :=
  ["제가 담당", "제 경험", "직접 처리", "제가 실제",
   "저도 처음", "실무에서 겪", "현장에서", "실제로 해보",
   "담당했던", "경험상", "체감", "솔직히"]

/-- Bold-span regex `\*\*[^*]+\*\*`. -/
def boldRE : RE :=
  catList [litR "**", plusR (.cls (fun c => c ≠ '*')), litR "**"]

/-- Bolded-ordinal regex `\*\*(?:첫째|둘째|셋째|넷째|다섯째|첫\s*번째|두\s*번째|세\s*번째)`. -/
def ordinalRE : RE :=
  .cat (litR "**")
    (altList [litR "첫째", litR "둘째", litR "셋째", litR "넷째", litR "다섯째",
      catList [litR "첫", wsStar, litR "번째"],
      catList [litR "두", wsStar, litR "번째"],
      catList [litR "세", wsStar, litR "번째"]])

/-- FAQ-marker regex `\*\*Q\d+\.`. -/
def faqRE : RE :=
  catList [litR "**Q", plusR (.cls Char.isDigit), chR '.']

/-- Advice-ending regex `(?:주의하세요|확인하세요|유의하세요|참고하세요|기억하세요)`. -/
def adviceRE : RE :=
  altList [litR "주의하세요", litR "확인하세요", litR "유의하세요",
    litR "참고하세요", litR "기억하세요"]

/-- One detected issue (`category`, `detail`, `severity`); numeric `detail`
formatting of the source is reproduced only where it is integer-valued. -/
structure Issue where
  category : String
  detail : String
  severity : ℤ
deriving DecidableEq

/-- The `HumanReviewResult` value object of `humanizer.py`. -/
structure HumanReviewResult where
  issues : List Issue
  score : ℤ
  rewritten_body : Option String
deriving DecidableEq

/-- Fresh `HumanReviewResult()`: no issues, score 100. -/
def HumanReviewResult.init : HumanReviewResult :=
  ⟨[], 100, none⟩

/-- Method `HumanReviewResult.add_issue`: append the issue and subtract its
severity from the score, flooring at 0. -/
def HumanReviewResult.add_issue (r : HumanReviewResult)
    (category detail : String) (severity : ℤ) : HumanReviewResult :=
  { r with
    issues := r.issues ++ [⟨category, detail, severity⟩],
    score := max 0 (r.score - severity) }

/-- Property `HumanReviewResult.needs_rewrite`: score strictly below 80. -/
def HumanReviewResult.needs_rewrite (r : HumanReviewResult) : Bool :=
  r.score < 80

/-- Auxiliary loop for `splitH2`. -/
def splitH2Aux : ℕ → Bool → List Char → List Char → List (List Char)
  | 0, _, accRev, s => [accRev.reverse ++ s]
  | _ + 1, _, accRev, [] => [accRev.reverse]
  | f + 1, atLS, accRev, c :: cs =>
    if atLS && listStartsWith "## ".data (c :: cs) then
      accRev.reverse :: splitH2Aux f false [] ((c :: cs).drop 3)
    else
      splitH2Aux f (c = '\n') (c :: accRev) cs

/-- Python `re.split(r'^## ', body, flags=re.MULTILINE)`. -/
def splitH2 (s : List Char) : List (List Char) :=
  splitH2Aux s.length true [] s

/-- Match of `^[-*]\s` at a line start when the line is followed by a
newline (the `\s` may be that newline itself). -/
def bulletStartNl (l : List Char) : Bool :=
  match l with
  | [c] => c = '-' || c = '*'
  | c :: d :: _ => (c = '-' || c = '*') && pyWsChar d
  | [] => false

/-- Match of `^[-*]\s` at the start of the final line (no newline follows,
so the whitespace must be inside the line). -/
def bulletStartFull (l : List Char) : Bool :=
  match l with
  | c :: d :: _ => (c = '-' || c = '*') && pyWsChar d
  | _ => false

/-- Auxiliary loop for `bulletCountPiece`. -/
def bulletCountAux : List (List Char) → ℕ
  | [] => 0
  | [l] => if bulletStartFull l then 1 else 0
  | l :: ls => (if bulletStartNl l then 1 else 0) + bulletCountAux ls

/-- Python `len(re.findall(r'^[-*]\s', section, re.MULTILINE))`. -/
def bulletCountPiece (p : List Char) : ℕ :=
  bulletCountAux (splitLines p)

/-- Paragraph list of `detect_ai_patterns`: split on blank lines, strip,
drop empties and heading/table paragraphs. -/
def paragraphsOf (s : List Char) : List (List Char) :=
  ((splitOnSub ['\n', '\n'] s).map pyStrip).filter
    (fun p => !p.isEmpty && p.head? ≠ some '#' && p.head? ≠ some '|')

/-- Function `detect_ai_patterns` of `humanizer.py`: the ordered rule-based
AI-pattern detector producing a `HumanReviewResult`. -/
def detect_ai_patterns (body : String) : HumanReviewResult :=
  let s := body.data
  let r0 := HumanReviewResult.init
  -- 1. cliché patterns (severity 4 each matching pattern)
  let r1 := aiClichePatterns.foldl
    (fun r pc => if reHasMatch pc.1 s then r.add_issue "상투적 표현" pc.2 4 else r)
    r0
  -- 1-1. direct AI phrases; first hits reported while the running total ≤ 3
  let st := aiDirectPhrases.foldl
    (fun (st : ℕ × HumanReviewResult) pe =>
      let cnt := countSub pe.1.data s
      if 1 ≤ cnt then
        let total := st.1 + cnt
        (total,
          if total ≤ 3 then
            st.2.add_issue "상투적 표현" (pe.1 ++ " " ++ toString cnt ++ "회") pe.2
          else st.2)
      else st)
    (0, r1)
  let r2 := if 3 ≤ st.1 then
      st.2.add_issue "상투적 표현" ("AI 상투어 총 " ++ toString st.1 ++ "개 감지") 5
    else st.2
  -- 2. connector over-use
  let connCounts := aiOverusedConnectors.filterMap
    (fun c => let n := countSub c.data s; if 2 ≤ n then some (c, n) else none)
  let r3 := if 3 ≤ connCounts.length then
      r2.add_issue "접속사 과다" "과도한 접속사 사용" 6
    else if 2 ≤ connCounts.length then
      r2.add_issue "접속사 과다" "접속사 반복" 3
    else r2
  -- 3. sentence-ending monotony (ratios compared exactly: 0.85 and 0.75)
  let eNida := reCount (.cat (litR "니다") endPunctWs) s
  let eSeyo := reCount (.cat (litR "세요") endPunctWs) s
  let eNdeyo := reCount (.cat (litR "는데요") endPunctWs) s
  let eGeo := reCount (.cat (litR "거든요") endPunctWs) s
  let eJiyo := reCount (.cat (altList [litR "이죠", litR "지요", litR "이에요"]) endPunctWs) s
  let eRago := reCount (.cat (litR "더라고요") endPunctWs) s
  let tot := eNida + eSeyo + eNdeyo + eGeo + eJiyo + eRago
  let r4 := if 0 < tot then
      if 17 * tot < 20 * eNida ∧ 15 ≤ eNida then
        r3.add_issue "종결어미 단조" "니다 종결 비율 과다" 7
      else if 3 * tot < 4 * eNida ∧ 10 ≤ eNida then
        r3.add_issue "종결어미 단조" "니다 종결 비율이 높음" 4
      else r3
    else r3
  -- 4. bold overuse
  let bc := reCount boldRE s
  let r5 := if 15 ≤ bc then
      r4.add_issue "강조 과다" ("볼드 " ++ toString bc ++ "회 사용") 5
    else if 10 ≤ bc then
      r4.add_issue "강조 과다" ("볼드 " ++ toString bc ++ "회") 3
    else r4
  -- 5. mechanical ordinal enumeration
  let oc := reCount ordinalRE s
  let r6 := if 3 ≤ oc then
      r5.add_issue "기계적 나열" ("순서 나열 " ++ toString oc ++ "회") 5
    else r5
  -- 6. exactly three FAQ markers
  let fc := reCount faqRE s
  let r7 := if fc = 3 then
      r6.add_issue "기계적 구조" "FAQ가 정확히 3개" 4
    else r6
  -- 7. paragraph-length uniformity (coefficient of variation < 0.20,
  --    compared exactly as 25·variance < mean²)
  let paras := paragraphsOf s
  let lens : List ℚ := paras.map (fun p => mkRat (p.length : ℤ) 1)
  let avg : ℚ := qDiv (lens.foldl qAdd 0) (mkRat (lens.length : ℤ) 1)
  let variance : ℚ :=
    qDiv ((lens.map (fun l => qMul (qSub l avg) (qSub l avg))).foldl qAdd 0)
      (mkRat (lens.length : ℤ) 1)
  let r8 := if 4 ≤ paras.length ∧ 0 < avg ∧ qMul (mkRat 25 1) variance < qMul avg avg then
      r7.add_issue "구조적 패턴" "단락 길이가 균일함" 4
    else r7
  -- 8. repeated paragraph-opening words
  let starts := paras.filterMap (fun p => (wordsOf p).head?)
  let r9 := if 5 ≤ paras.length ∧ starts.any (fun w => 3 ≤ starts.count w) then
      r8.add_issue "구조적 패턴" "단락 시작 반복" 4
    else r8
  -- 9. excess exclamation marks
  let ec := s.count '!'
  let r10 := if 8 < ec then
      r9.add_issue "톤 부자연스러움" ("느낌표 " ++ toString ec ++ "개") 3
    else r9
  -- 10. identical bullet counts across all level-2 sections
  let secs := splitH2 s
  let bcs := (secs.drop 1).map bulletCountPiece
  let r11 := if 4 ≤ secs.length ∧ bcs ≠ [] ∧
      bcs.all (fun x => x = bcs.headD 0) ∧ 3 ≤ bcs.headD 0 then
      r10.add_issue "구조적 패턴" "모든 섹션이 동일 포인트 수" 5
    else r10
  -- 11. advice-phrase overuse
  let ac := reCount adviceRE s
  let r12 := if 4 ≤ ac then
      r11.add_issue "톤 부자연스러움" ("조언형 문장 " ++ toString ac ++ "회") 3
    else r11
  -- 12. absence of personal-experience markers
  let pf := personalMarkers.countP (fun m => containsSub m.data s)
  if pf = 0 then
    r12.add_issue "개인성 부재" "개인 경험 표현이 전혀 없음" 5
  else r12

/-- Auxiliary loop for `collapseBangs`. -/
def collapseBangsAux : ℕ → List Char → List Char
  | 0, s => s
  | _ + 1, [] => []
  | f + 1, c :: cs =>
    if c = '!' then '!' :: collapseBangsAux f (cs.dropWhile (fun d => d = '!'))
    else c :: collapseBangsAux f cs

/-- Python `re.sub(r'!{2,}', '!', s)`: collapse every run of two or more
exclamation marks to a single one. -/
def collapseBangs (s : List Char) : List Char :=
  collapseBangsAux s.length s

/-- Regex `또한[,]?\s` of `quick_fix_patterns`. -/
def ttohanRE : RE :=
  catList [litR "또한", optR (chR ','), wsR]

/-- Replacement closure `replace_connector`: the source increments a match
counter and deletes a match exactly when the pre-increment counter is a
positive multiple of 4 (the non-empty replacement entries are unreachable). -/
def ttohanRepl (i : ℕ) (m : List Char) : List Char :=
  if i % 4 = 0 ∧ 1 ≤ i then [] else m

/-- The `ending_replacements` table of `quick_fix_patterns`. -/
def endingReplacements : List String :=
  ["거든요.", "셈이죠.", "는 겁니다.", "점, 기억하세요."]

/-- Replacement closure `diversify_endings`: match number `i` is replaced by
`ending_replacements[i % 4]` exactly when `i` is a positive multiple of 3. -/
def geotRepl (i : ℕ) (m : List Char) : List Char :=
  if i % 3 = 0 ∧ 0 < i then ((endingReplacements.getD (i % 4) "").data) else m

/-- Function `quick_fix_patterns` of `humanizer.py`: the unconditional cheap
normalizations (the connector rule is gated on the original body containing
`또한` at least 5 times; the ending rule on the current text containing
`것입니다.` at least 5 times). -/
def quick_fix_patterns (body : String) : String :=
  let s := body.data
  let f1 := collapseBangs s
  let f2 := if 5 ≤ countSub "또한".data s then reSubCounted ttohanRE ttohanRepl f1 else f1
  let f3 := if 5 ≤ countSub "것입니다.".data f2 then
      reSubCounted (litR "것입니다.") geotRepl f2
    else f2
  String.mk f3

/-- Keyword-variant regex of `humanize_body`: the first two keyword
characters followed by one to six Hangul syllables. -/
def variantRE (keyword : String) : RE :=
  .cat (litR (String.mk (keyword.data.take 2))) (repR hangulR 1 6)

/-- Count of pipe-delimited table rows, Python
`len(re.findall(r'^\|.+\|$', s, re.MULTILINE))`. -/
def tableLineCount (s : List Char) : ℕ :=
  ((splitLines s).filter
    (fun l => 3 ≤ l.length && l.head? = some '|' && l.getLast? = some '|')).length

/-- Function `humanize_body` of `humanizer.py`.  The external LLM call is
modelled by `api : Option String` (`none` = the call raised; `some resp` =
the response text).  All float-ratio guards are translated to exact
rational/integer comparisons. -/
def humanize_body (api : Option String) (body title keyword : String)
    (review : HumanReviewResult) : String :=
  let _ := title
  if review.issues = [] then body
  else
    match api with
    | none => body
    | some resp =>
      let rewritten := String.mk (pyStrip resp.data)
      let ol : ℤ := body.data.length
      let rl : ℤ := rewritten.data.length
      if 10 * rl < 7 * ol then body
      else if 7 * ol < 5 * rl then body
      else
        let okc : ℤ := if keyword ≠ "" then countSub keyword.data body.data else 0
        let rkc : ℤ := if keyword ≠ "" then countSub keyword.data rewritten.data else 0
        let kvc : ℤ :=
          if 4 ≤ keyword.length then
            rkc + ((reCount (variantRE keyword) rewritten.data : ℤ) - rkc)
          else rkc
        if keyword ≠ "" ∧ 0 < okc ∧ 10 * rkc < 3 * okc ∧ 2 * kvc < okc then body
        else if containsSub "silmu.kr".data body.data ∧
            ¬ containsSub "silmu.kr".data rewritten.data then body
        else
          let ot : ℤ := tableLineCount body.data
          let rt : ℤ := tableLineCount rewritten.data
          if 0 < ot ∧ 2 * rt < ot then body
          else rewritten

/-- Method `Humanizer.review_and_fix` of `humanizer.py`: detect, apply the
quick fixes, optionally rewrite through the external collaborator, keep the
candidate only on a strict score improvement (else fall back to the
original body). -/
def review_and_fix (api : Option String) (body title keyword : String)
    (force_rewrite : Bool) : String × HumanReviewResult :=
  let review := detect_ai_patterns body
  let fixed := quick_fix_patterns body
  if review.needs_rewrite || force_rewrite then
    let cand := humanize_body api fixed title keyword review
    let post := detect_ai_patterns cand
    if review.score < post.score then
      (cand, { post with rewritten_body := some cand })
    else
      (body, review)
  else
    (fixed, review)

/-!  `modules/generator/seo_optimizer.py` -/

/-- Python `round` with ties to even, on exact rationals (written with
`Rat.floor` and `mkRat` so that it evaluates by kernel reduction). -/
def roundHalfEven (x : ℚ) : ℤ :=
  let f := x.floor
  let r := qSub x (mkRat f 1)
  if r < mkRat 1 2 then f
  else if mkRat 1 2 < r then f + 1
  else if f % 2 = 0 then f else f + 1

/-- Python `round(x, n)` on exact rationals. -/
def roundQ (n : ℕ) (x : ℚ) : ℚ :=
  mkRat (roundHalfEven (qMul x (mkRat ((10 : ℤ) ^ n) 1))) (10 ^ n)

/-- Citation pattern `법령|규칙|규정|기준`. -/
def authP1 : RE := altList [litR "법령", litR "규칙", litR "규정", litR "기준"]

/-- Citation pattern `대통령령|부령|고시|예규`. -/
def authP2 : RE := altList [litR "대통령령", litR "부령", litR "고시", litR "예규"]

/-- Citation pattern `출처:|참고:`. -/
def authP3 : RE := altList [litR "출처:", litR "참고:"]

/-- URL pattern `https?://[^\s]+` (case-insensitive). -/
def authP4 : RE :=
  catList [litCI "http", optR (litCI "s"), litR "://",
    plusR (.cls (fun c => !pyWsChar c))]

/-- Method `SEOOptimizer._check_auth_gr`: citation/link matches mapped to a
0/10/20/25 score. -/
def check_auth_gr (body : String) : ℚ :=
  let s := body.data
  let m := reCount authP1 s + reCount authP2 s + reCount authP3 s + reCount authP4 s
  if 5 ≤ m then 25 else if 3 ≤ m then 20 else if 1 ≤ m then 10 else 0

/-- Characters kept by the density normalization
`[^ㄱ-ㅎㅏ-ㅣ가-힣a-zA-Z0-9\s]` removal. -/
def keepDensityChar (c : Char) : Bool :=
  (0x3131 ≤ c.toNat && c.toNat ≤ 0x314E) ||
  (0x314F ≤ c.toNat && c.toNat ≤ 0x3163) ||
  (0xAC00 ≤ c.toNat && c.toNat ≤ 0xD7A3) ||
  c.isAlpha || c.isDigit || pyWsChar c

/-- Method `SEOOptimizer.get_keyword_density`: percentage of
whitespace-separated words of the normalized text that contain the
keyword case-insensitively, rounded to 2 decimals. -/
def get_keyword_density (text keyword : String) : ℚ :=
  let clean := text.data.filter keepDensityChar
  let ws := wordsOf clean
  if ws = [] then 0
  else
    let kwL := lowerList keyword.data
    let cnt := ws.countP (fun w => containsSub kwL (lowerList w))
    roundQ 2 (qMul (mkRat (cnt : ℤ) ws.length) (mkRat 100 1))

/-- Method `SEOOptimizer._check_c_rank`: density score table and the
density itself. -/
def check_c_rank (body keyword : String) : ℚ × ℚ :=
  let kd := get_keyword_density body keyword
  let score : ℚ :=
    if mkRat 3 2 ≤ kd ∧ kd ≤ mkRat 5 2 then 25
    else if 1 ≤ kd ∧ kd < mkRat 3 2 then 20
    else if mkRat 5 2 < kd ∧ kd ≤ 3 then 20
    else if mkRat 1 2 ≤ kd ∧ kd < 1 then 15
    else if 3 < kd ∧ kd ≤ mkRat 7 2 then 15
    else 5
  (score, kd)

/-- H2-heading pattern `##\s+|<h2[^>]*>|## ` (case-insensitive). -/
def h2SeoRE : RE :=
  altList [catList [litR "##", wsPlus],
    catList [litCI "<h2", .starG (.cls (fun c => c ≠ '>')), chR '>'],
    litR "## "]

/-- Table pattern `\|.*\|.*\||\<table[^>]*\>` (case-insensitive). -/
def tableSeoRE : RE :=
  altList [catList [chR '|', .starG dotR, chR '|', .starG dotR, chR '|'],
    catList [litCI "<table", .starG (.cls (fun c => c ≠ '>')), chR '>']]

/-- FAQ pattern `Q\.|Q\.|Q&A|FAQ|자주 묻는|질문과 답변` (case-insensitive;
the duplicated first alternative is kept as in the source). -/
def faqSeoRE : RE :=
  altList [litCI "Q.", litCI "Q.", litCI "Q&A", litCI "FAQ",
    litR "자주 묻는", litR "질문과 답변"]

/-- Method `SEOOptimizer._check_dia_plus`: structural richness bonuses,
capped at 25. -/
def check_dia_plus (body : String) : ℚ :=
  let s := body.data
  let h2c := reCount h2SeoRE s
  let b1 : ℚ := if 3 ≤ h2c then 15 else if 2 ≤ h2c then 10 else if 1 ≤ h2c then 5 else 0
  let tc := reCount tableSeoRE s
  let b2 : ℚ := if 0 < tc then 5 else 0
  let fc := reCount faqSeoRE s
  let b3 : ℚ := if 3 ≤ fc then 5 else 0
  min 25 (qAdd (qAdd b1 b2) b3)

/-- First-sentence pattern `[^.!?]+[.!?]` used by `_check_ai_briefing`. -/
def firstSentenceRE : RE :=
  catList [plusR (.cls (fun c => c ≠ '.' && c ≠ '!' && c ≠ '?')),
    .cls (fun c => c = '.' || c = '!' || c = '?')]

/-- Method `SEOOptimizer._check_ai_briefing`: keyword lead-placement score,
capped at 25. -/
def check_ai_briefing (title body keyword : String) : ℚ :=
  let kwL := lowerList keyword.data
  let s1 : ℚ := if containsSub kwL (lowerList title.data) then 10 else 0
  let s2 : ℚ := if containsSub kwL (lowerList (body.data.take 100)) then 15 else 0
  let s3 : ℚ :=
    match reMatchAt firstSentenceRE body.data with
    | some rem =>
      let n := body.data.length - rem
      if 30 < n ∧ containsSub kwL (lowerList (body.data.take n)) then 5 else 0
    | none => 0
  min 25 (qAdd (qAdd s1 s2) s3)

/-- Method `SEOOptimizer._generate_recommendations`. -/
def generate_recommendations (ag cr dp ab : ℚ) (level : String) : List String :=
  let l1 := if ag < 20 then ["법령 인용이나 출처 링크를 추가하여 신뢰성을 높이세요."] else []
  let l2 := if cr < 20 then
      (if level = "low" then ["키워드 밀도를 1.5-2.5% 범위로 높이세요."]
       else if level = "high" then ["과도한 키워드 반복을 줄여 자연스러운 문장으로 수정하세요."]
       else [])
    else []
  let l3 := if dp < 20 then ["H2 제목 3개 이상, 표, FAQ 형식 등으로 콘텐츠를 구조화하세요."] else []
  let l4 := if ab < 20 then ["제목과 첫 문장에 주요 키워드를 포함시키세요."] else []
  let all := l1 ++ l2 ++ l3 ++ l4
  if all = [] then ["SEO 최적화가 잘 진행되고 있습니다. 계속 좋은 품질을 유지하세요."] else all

/-- Result dictionary of `SEOOptimizer.calculate_score`. -/
structure SeoResult where
  total_score : ℚ
  auth_gr_score : ℚ
  c_rank_score : ℚ
  dia_plus_score : ℚ
  ai_briefing_score : ℚ
  keyword_density : ℚ
  keyword_density_level : String
  recommendations : List String
deriving DecidableEq

/-- Method `SEOOptimizer.calculate_score`: the four sub-scores, the summed
total capped at 100, the rounded density and its level. -/
def calculate_score (title body keyword : String) : SeoResult :=
  let ag := check_auth_gr body
  let ckd := check_c_rank body keyword
  let dp := check_dia_plus body
  let ab := check_ai_briefing title body keyword
  let total := qAdd (qAdd (qAdd ag ckd.1) dp) ab
  let level := if ckd.2 < mkRat 3 2 then "low"
    else if mkRat 3 2 ≤ ckd.2 ∧ ckd.2 ≤ mkRat 5 2 then "optimal"
    else "high"
  { total_score := min 100 total,
    auth_gr_score := ag,
    c_rank_score := ckd.1,
    dia_plus_score := dp,
    ai_briefing_score := ab,
    keyword_density := roundQ 2 ckd.2,
    keyword_density_level := level,
    recommendations := generate_recommendations ag ckd.1 dp ab level }

/-!  `modules/generator/quality_checker.py` -/

/-- Python `\w` on the alphabets this repository processes (ASCII word
characters and the Hangul blocks). -/
def pyWordChar (c : Char) : Bool :=
  c.isAlphanum || c = '_' ||
  (0x3131 ≤ c.toNat && c.toNat ≤ 0x3163) ||
  (0xAC00 ≤ c.toNat && c.toNat ≤ 0xD7A3) ||
  (0x1100 ≤ c.toNat && c.toNat ≤ 0x11FF)

/-- Auxiliary loop for `collapseWs`. -/
def collapseWsAux : ℕ → List Char → List Char
  | 0, s => s
  | _ + 1, [] => []
  | f + 1, c :: cs =>
    if pyWsChar c then ' ' :: collapseWsAux f (cs.dropWhile pyWsChar)
    else c :: collapseWsAux f cs

/-- Python `re.sub(r'\s+', ' ', s)`. -/
def collapseWs (s : List Char) : List Char :=
  collapseWsAux s.length s

/-- Method `QualityChecker._normalize_text`: collapse whitespace, drop
non-word characters, lowercase, strip. -/
def normalize_text (text : String) : String :=
  let t1 := collapseWs text.data
  let t2 := t1.filter (fun c => pyWordChar c || pyWsChar c)
  String.mk (pyStrip (lowerList t2))

/-- Ascending positions of character `c` in `b` (difflib `b2j`). -/
def positionsOf (b : List Char) (c : Char) : List ℕ :=
  (List.range b.length).filter (fun j => b.getD j ' ' = c)

/-- The difflib autojunk rule: with `len(b) ≥ 200`, characters occurring
more than `len(b) // 100 + 1` times are dropped from `b2j`. -/
def popularB (b : List Char) (c : Char) : Bool :=
  if 200 ≤ b.length then decide (b.length / 100 + 1 < b.count c) else false

/-- Positions used by `find_longest_match` for character `c`. -/
def b2jOf (b : List Char) (c : Char) : List ℕ :=
  if popularB b c then [] else positionsOf b c

/-- Dictionary phase of difflib `SequenceMatcher.find_longest_match`:
`j2len`-style longest-common-suffix lengths swept over `a[alo:ahi]`,
tracking the first-found longest block. -/
def flmPhase1 (a b : List Char) (alo ahi blo bhi : ℕ) : ℕ × ℕ × ℕ :=
  ((List.range' alo (ahi - alo)).foldl
    (fun (st : (ℕ → ℕ) × ℕ × ℕ × ℕ) i =>
      let old := st.1
      let js := (b2jOf b (a.getD i ' ')).filter (fun j => blo ≤ j && j < bhi)
      let newf : ℕ → ℕ := fun j =>
        if js.contains j then (if j = 0 then 0 else old (j - 1)) + 1 else 0
      let best := js.foldl
        (fun (bst : ℕ × ℕ × ℕ) j =>
          let k := (if j = 0 then 0 else old (j - 1)) + 1
          if bst.2.2 < k then (i + 1 - k, j + 1 - k, k) else bst)
        st.2
      (newf, best))
    ((fun _ => 0), (alo, blo, 0))).2

/-- Leftward extension loop of `find_longest_match` (with no junk, the two
junk-absorbing loops of difflib are no-ops and are omitted). -/
def extendLeft (a b : List Char) (alo blo : ℕ) : ℕ → ℕ × ℕ × ℕ → ℕ × ℕ × ℕ
  | 0, st => st
  | f + 1, (bi, bj, bs) =>
    if alo < bi && blo < bj && a.getD (bi - 1) '\x00' = b.getD (bj - 1) '\x01' then
      extendLeft a b alo blo f (bi - 1, bj - 1, bs + 1)
    else (bi, bj, bs)

/-- Rightward extension loop of `find_longest_match`. -/
def extendRight (a b : List Char) (ahi bhi : ℕ) : ℕ → ℕ × ℕ × ℕ → ℕ × ℕ × ℕ
  | 0, st => st
  | f + 1, (bi, bj, bs) =>
    if bi + bs < ahi && bj + bs < bhi && a.getD (bi + bs) '\x00' = b.getD (bj + bs) '\x01' then
      extendRight a b ahi bhi f (bi, bj, bs + 1)
    else (bi, bj, bs)

/-- difflib `SequenceMatcher.find_longest_match` with no junk parameter. -/
def findLongestMatch (a b : List Char) (alo ahi blo bhi : ℕ) : ℕ × ℕ × ℕ :=
  let p := flmPhase1 a b alo ahi blo bhi
  let p2 := extendLeft a b alo blo p.1 p
  extendRight a b ahi bhi ahi p2

/-- Total size of all matching blocks of `get_matching_blocks` (the sort and
adjacent-merge steps of difflib preserve this total).  The fuel decreases by
at least two per level, so `len(a) + len(b) + 1` always suffices. -/
def matchedTotal (a b : List Char) : ℕ → ℕ × ℕ × ℕ × ℕ → ℕ
  | 0, _ => 0
  | f + 1, (alo, ahi, blo, bhi) =>
    let m := findLongestMatch a b alo ahi blo bhi
    let i := m.1
    let j := m.2.1
    let k := m.2.2
    if k = 0 then 0
    else
      k + (if alo < i ∧ blo < j then matchedTotal a b f (alo, i, blo, j) else 0)
        + (if i + k < ahi ∧ j + k < bhi then matchedTotal a b f (i + k, ahi, j + k, bhi) else 0)

/-- difflib `SequenceMatcher(None, a, b).ratio()` as an exact rational
(`1` when both inputs are empty, as in difflib). -/
def ratioQ (a b : List Char) : ℚ :=
  let la := a.length
  let lb := b.length
  if la + lb = 0 then 1
  else mkRat (2 * (matchedTotal a b (la + lb + 1) (0, la, 0, lb) : ℤ)) (la + lb)

/-- Method `QualityChecker._calculate_similarity`: 0 on an empty side, else
the SequenceMatcher ratio. -/
def calculate_similarity (t1 t2 : String) : ℚ :=
  if t1 = "" ∨ t2 = "" then 0 else ratioQ t1.data t2.data

/-- Row of the `posts` table as read by `check_duplicate` (the schema
declares `status` as one of draft, approved, published, rejected). -/
structure PostRow where
  id : ℤ
  title : String
  body : String
  status : String
deriving DecidableEq

/-- Result dictionary of `QualityChecker.check_duplicate`. -/
structure DupResult where
  is_duplicate : Bool
  reason : String
  most_similar_title : String
  title_similarity : ℚ
  body_similarity : ℚ
deriving DecidableEq

/-- Status filter of the `check_duplicate` SQL query
(`status IN ('published', 'approved', 'draft')`). -/
def duplicateStatusOk (p : PostRow) : Bool :=
  p.status = "published" || p.status = "approved" || p.status = "draft"

/-- The `check_duplicate` corpus query: the corpus list is given most recent
first (`ORDER BY created_at DESC`); filter by status, exclude the current
post when `exclude_post_id` is truthy, and take the first 50. -/
def duplicateQuery (corpus : List PostRow) (exclude : Option ℤ) : List PostRow :=
  let rows :=
    match exclude with
    | some eid =>
      if eid ≠ 0 then corpus.filter (fun p => duplicateStatusOk p && p.id ≠ eid)
      else corpus.filter duplicateStatusOk
    | none => corpus.filter duplicateStatusOk
  rows.take 50

/-- Loop body of `check_duplicate`: update the running maxima
`(max_title_sim, max_body_sim, most_similar_title)` with one corpus post. -/
def dupStep (tn bn : String) (st : ℚ × ℚ × String) (p : PostRow) : ℚ × ℚ × String :=
  let tSim := calculate_similarity tn (normalize_text p.title)
  let bSim := calculate_similarity bn (normalize_text (String.mk (p.body.data.take 1000)))
  let st1 := if st.1 < tSim then (tSim, st.2.1, p.title) else st
  if st1.2.1 < bSim then (st1.1, bSim, st1.2.2) else st1

/-- Method `QualityChecker.check_duplicate`: maximal title / body-prefix
similarities against the queried corpus, duplicate when the title maximum
reaches 0.6 or the body maximum reaches 0.4, title reason first. -/
def check_duplicate (title body : String) (corpus : List PostRow)
    (exclude : Option ℤ) : DupResult :=
  let existing := duplicateQuery corpus exclude
  if existing = [] then ⟨false, "기존 포스트 없음", "", 0, 0⟩
  else
    let tn := normalize_text title
    let bn := normalize_text (String.mk (body.data.take 1000))
    let st := existing.foldl (dupStep tn bn) (0, 0, "")
    if mkRat 3 5 ≤ st.1 then
      ⟨true, "제목 유사도 " ++ toString (roundHalfEven (qMul st.1 (mkRat 100 1))) ++
        "% (기준: 60%)", st.2.2, roundQ 4 st.1, roundQ 4 st.2.1⟩
    else if mkRat 2 5 ≤ st.2.1 then
      ⟨true, "본문 유사도 " ++ toString (roundHalfEven (qMul st.2.1 (mkRat 100 1))) ++
        "% (기준: 40%)", st.2.2, roundQ 4 st.1, roundQ 4 st.2.1⟩
    else
      ⟨false, "통과", st.2.2, roundQ 4 st.1, roundQ 4 st.2.1⟩

/-!  `modules/publisher/anti_detection.py` -/

/-- Row of `posting_history` as read by the publish gate; `published_at`
is modelled in seconds. -/
structure HistoryRow where
  published_at : ℤ
  publish_status : String
deriving DecidableEq

/-- The gate settings (`MIN_INTERVAL_HOURS`, `MAX_POSTS_PER_DAY`,
`MAX_POSTS_PER_WEEK`, `PREFERRED_HOURS`). -/
structure GateConfig where
  min_interval_hours : ℤ
  max_posts_per_day : ℤ
  max_posts_per_week : ℤ
  preferred_hours : List ℤ
deriving DecidableEq

/-- The settings defaults (4 h, 2/day, 5/week, hours 9/15/20). -/
def defaultGateConfig : GateConfig := ⟨4, 2, 5, [9, 15, 20]⟩

/-- A history query either fails (the caught-exception branch) or returns
the rows. -/
def HistoryDb : Type := Except String (List HistoryRow)

/-- Timestamp of the most recent successful publish
(`ORDER BY published_at DESC LIMIT 1` over `publish_status = 'success'`). -/
def lastSuccessTime (rows : List HistoryRow) : Option ℤ :=
  (rows.filterMap
    (fun r => if r.publish_status = "success" then some r.published_at else none)).foldl
    (fun acc t => match acc with | none => some t | some m => some (max m t)) none

/-- Method `AntiDetection._check_interval`: at least `min_interval_hours`
since the last successful publish, true when none exists, true on a query
error. -/
def check_interval (cfg : GateConfig) (db : HistoryDb) (now : ℤ) : Bool :=
  match db with
  | .error _ => true
  | .ok rows =>
    match lastSuccessTime rows with
    | none => true
    | some last => cfg.min_interval_hours * 3600 ≤ now - last

/-- Method `AntiDetection._check_daily_limit`: fewer than
`max_posts_per_day` successes with today's date, true on a query error
(calendar days are modelled as `t / 86400`). -/
def check_daily_limit (cfg : GateConfig) (db : HistoryDb) (now : ℤ) : Bool :=
  match db with
  | .error _ => true
  | .ok rows =>
    ((rows.countP
      (fun r => r.publish_status = "success" && r.published_at / 86400 = now / 86400) : ℤ)
      < cfg.max_posts_per_day : Bool)

/-- Method `AntiDetection._check_weekly_limit`: fewer than
`max_posts_per_week` successes in the trailing 7 days, true on a query
error. -/
def check_weekly_limit (cfg : GateConfig) (db : HistoryDb) (now : ℤ) : Bool :=
  match db with
  | .error _ => true
  | .ok rows =>
    ((rows.countP
      (fun r => r.publish_status = "success" && now - 7 * 86400 ≤ r.published_at) : ℤ)
      < cfg.max_posts_per_week : Bool)

/-- Method `AntiDetection.can_publish`: the three checks in order with their
reasons (the next-publish-time text of the first reason is elided). -/
def can_publish (cfg : GateConfig) (db : HistoryDb) (now : ℤ) : Bool × String :=
  if !check_interval cfg db now then (false, "최소 간격 미충족")
  else if !check_daily_limit cfg db now then (false, "일일 제한 초과")
  else if !check_weekly_limit cfg db now then (false, "주간 제한 초과")
  else (true, "발행 가능")

/-- Hour field of a datetime modelled as integer microseconds. -/
def dtHour (t : ℤ) : ℤ :=
  t / 3600000000 % 24

/-- Python `dt.replace(hour=h, minute=0, second=0)` (microsecond kept);
raises `ValueError` outside `0 ≤ h ≤ 23`. -/
def dtReplaceHM0S0 (t h : ℤ) : Except String ℤ :=
  if h < 0 ∨ 23 < h then .error "ValueError"
  else .ok (t - t % 86400000000 + h * 3600000000 + t % 1000000)

/-- Python `min(l, key=lambda x: abs(x - h))`: first minimizer in list
order. -/
def pyMinByAbs (l : List ℤ) (h : ℤ) : ℤ :=
  match l with
  | [] => 0
  | p :: ps => ps.foldl (fun best q => if |q - h| < |best - h| then q else best) p

/-- Method `AntiDetection._add_gaussian_delay`: the Gaussian draw enters as
the `delay` parameter (microseconds); a non-preferred hour is snapped to
the closest preferred hour with minute and second zeroed; any exception
(empty preferred list, out-of-range replacement hour) returns the base
time. -/
def add_gaussian_delay (cfg : GateConfig) (base delay : ℤ) : ℤ :=
  let rt := base + delay
  let h := dtHour rt
  if cfg.preferred_hours.contains h then rt
  else
    match cfg.preferred_hours with
    | [] => base
    | p :: ps =>
      match dtReplaceHM0S0 rt (pyMinByAbs (p :: ps) h) with
      | .ok t => t
      | .error _ => base

/-!  `main.py` category rotation -/

/-- Function `_get_current_publish_category` of `main.py`: first category
under the rotation quota, else a round-robin index from the total count;
when `rotate_count * len(order) = 0` the first category is returned (an
`IndexError` only for an empty order).  Python `%` and `//` are `Int.fmod`
and `Int.fdiv`. -/
def get_current_publish_category (order : List String) (rotate_count : ℤ)
    (countByCat : String → ℤ) (total_published : ℤ) : Except String String :=
  match order.find? (fun c => countByCat c < rotate_count) with
  | some c => .ok c
  | none =>
    let total_per_round := rotate_count * (order.length : ℤ)
    if total_per_round = 0 then
      match order with
      | [] => .error "IndexError"
      | c :: _ => .ok c
    else
      let pos := Int.fmod total_published total_per_round
      let idx := Int.fdiv pos rotate_count
      let i := min idx ((order.length : ℤ) - 1)
      match order.get? i.toNat with
      | some c => .ok c
      | none => .error "IndexError"

/-!  Spec-side definitions, written from the specification's wording, used
only to compare a claimed behaviour against the embedded code. -/

/-- Keyword density as the specification describes it:
`(occurrences × keywordLength) / totalLength × 100`, with occurrences
counted as substring occurrences and lengths in characters. -/
def specKeywordDensity (body keyword : String) : ℚ :=
  if body.data.length = 0 then 0
  else (countSub keyword.data body.data : ℚ) * (keyword.length : ℚ) /
    (body.data.length : ℚ) * 100

/-- Corpus query as claim C8 describes it: up to the 50 most recent posts
of any status, excluding the current one. -/
def specDuplicateQuery (corpus : List PostRow) (exclude : Option ℤ) : List PostRow :=
  let rows : List PostRow :=
    match exclude with
    | some eid => corpus.filter (fun p => p.id ≠ eid)
    | none => corpus
  rows.take 50

/-- Duplicate verdict as claim C8 describes it: maximum title similarity at
least 0.6, or maximum body-prefix similarity at least 0.4, over the
any-status query. -/
def specIsDuplicate (title body : String) (corpus : List PostRow)
    (exclude : Option ℤ) : Bool :=
  let posts := specDuplicateQuery corpus exclude
  let tn := normalize_text title
  let bn := normalize_text (String.mk (body.data.take 1000))
  let maxT := (posts.map (fun p => calculate_similarity tn (normalize_text p.title))).foldl max 0
  let maxB := (posts.map (fun p =>
    calculate_similarity bn (normalize_text (String.mk (p.body.data.take 1000))))).foldl max 0
  decide (mkRat 3 5 ≤ maxT) || decide (mkRat 2 5 ≤ maxB)

/-!  Helper lemmas -/

/-- The empty pattern is contained in every text (Python `"" in s`). -/
theorem containsSub_nil (s : List Char) : containsSub [] s = true := by
  cases s with
  | nil => rfl
  | cons c cs => simp [containsSub, listStartsWith]

/-- Score of a fold of `add_issue` calls over a result with a non-negative
score, for non-negative severities: one global subtraction floored at 0. -/
theorem foldl_add_issue_score (adds : List Issue) :
    ∀ r : HumanReviewResult, 0 ≤ r.score → (∀ i ∈ adds, 0 ≤ i.severity) →
    (adds.foldl (fun r i => r.add_issue i.category i.detail i.severity) r).score =
      max 0 (r.score - (adds.map Issue.severity).sum) := by
  induction adds with
  | nil =>
    intro r h0 _
    simp only [List.foldl_nil, List.map_nil, List.sum_nil]
    omega
  | cons a rest ih =>
    intro r h0 hall
    have ha : 0 ≤ a.severity := hall a (by simp)
    have hrest : ∀ i ∈ rest, 0 ≤ i.severity := fun i hi => hall i (by simp [hi])
    have hsum : 0 ≤ (rest.map Issue.severity).sum := by
      apply List.sum_nonneg
      intro x hx
      obtain ⟨i, hi, rfl⟩ := List.mem_map.mp hx
      exact hrest i hi
    simp only [List.foldl_cons, List.map_cons, List.sum_cons]
    rw [ih _ (by simp [HumanReviewResult.add_issue]) hrest]
    simp only [HumanReviewResult.add_issue]
    omega

/-- Values of `mkRat` as ordinary division. -/
theorem mkRat_as_div (n : ℤ) (d : ℕ) : (mkRat n d : ℚ) = (n : ℚ) / (d : ℚ) := by
  rw [Rat.mkRat_eq_divInt, Rat.divInt_eq_div]
  norm_num

/-- The computable addition agrees with `+`. -/
theorem qAdd_eq (a b : ℚ) : qAdd a b = a + b := by
  rw [qAdd, Rat.divInt_eq_div]
  push_cast
  conv_rhs => rw [← Rat.num_div_den a, ← Rat.num_div_den b]
  have ha : ((a.den : ℚ)) ≠ 0 := by exact_mod_cast a.den_nz
  have hb : ((b.den : ℚ)) ≠ 0 := by exact_mod_cast b.den_nz
  field_simp

/-- The computable subtraction agrees with `-`. -/
theorem qSub_eq (a b : ℚ) : qSub a b = a - b := by
  rw [qSub, Rat.divInt_eq_div]
  push_cast
  conv_rhs => rw [← Rat.num_div_den a, ← Rat.num_div_den b]
  have ha : ((a.den : ℚ)) ≠ 0 := by exact_mod_cast a.den_nz
  have hb : ((b.den : ℚ)) ≠ 0 := by exact_mod_cast b.den_nz
  field_simp
  ring

/-- The computable multiplication agrees with `*`. -/
theorem qMul_eq (a b : ℚ) : qMul a b = a * b := by
  rw [qMul, Rat.divInt_eq_div]
  push_cast
  conv_rhs => rw [← Rat.num_div_den a, ← Rat.num_div_den b]
  have ha : ((a.den : ℚ)) ≠ 0 := by exact_mod_cast a.den_nz
  have hb : ((b.den : ℚ)) ≠ 0 := by exact_mod_cast b.den_nz
  field_simp

/-- The computable division agrees with `/`. -/
theorem qDiv_eq (a b : ℚ) : qDiv a b = a / b := by
  by_cases hb : b = 0
  · subst hb
    show Rat.divInt (a.num * (0 : ℚ).den) (a.den * (0 : ℚ).num) = a / 0
    norm_num
  · rw [qDiv, Rat.divInt_eq_div]
    push_cast
    conv_rhs => rw [← Rat.num_div_den a, ← Rat.num_div_den b]
    have ha : ((a.den : ℚ)) ≠ 0 := by exact_mod_cast a.den_nz
    have hbd : ((b.den : ℚ)) ≠ 0 := by exact_mod_cast b.den_nz
    have hbn : ((b.num : ℚ)) ≠ 0 := by
      exact_mod_cast Rat.num_ne_zero.mpr hb
    field_simp

/-- Rounding an integer rational is the identity. -/
theorem roundHalfEven_intCast (n : ℤ) : roundHalfEven (n : ℚ) = n := by
  simp only [roundHalfEven]
  rw [show ((n : ℚ)).floor = ⌊(n : ℚ)⌋ from rfl, Int.floor_intCast, Rat.mkRat_one,
    qSub_eq, mkRat_as_div]
  norm_num

/-- Python 2-decimal rounding is idempotent. -/
theorem roundQ_two_idem (x : ℚ) : roundQ 2 (roundQ 2 x) = roundQ 2 x := by
  simp only [roundQ]
  have hmul : qMul (mkRat (roundHalfEven (qMul x (mkRat ((10 : ℤ) ^ 2) 1))) (10 ^ 2))
      (mkRat ((10 : ℤ) ^ 2) 1) =
      ((roundHalfEven (qMul x (mkRat ((10 : ℤ) ^ 2) 1)) : ℤ) : ℚ) := by
    rw [qMul_eq, mkRat_as_div, mkRat_as_div]
    push_cast
    ring
  rw [hmul, roundHalfEven_intCast]

/-- Rounding zero gives zero. -/
theorem roundQ_zero (n : ℕ) : roundQ n 0 = 0 := by
  simp only [roundQ]
  rw [qMul_eq, zero_mul, show (0 : ℚ) = ((0 : ℤ) : ℚ) by norm_num, roundHalfEven_intCast,
    mkRat_as_div]
  norm_num

/-- Re-rounding a keyword density is the identity. -/
theorem roundQ_two_get_kd (b k : String) :
    roundQ 2 (get_keyword_density b k) = get_keyword_density b k := by
  simp only [get_keyword_density]
  split
  · exact roundQ_zero 2
  · exact roundQ_two_idem _

/-- First component of `can_publish`: the conjunction of the three checks. -/
theorem can_publish_fst (cfg : GateConfig) (db : HistoryDb) (now : ℤ) :
    (can_publish cfg db now).1 =
      (check_interval cfg db now &&
        (check_daily_limit cfg db now && check_weekly_limit cfg db now)) := by
  unfold can_publish
  cases h1 : check_interval cfg db now <;> cases h2 : check_daily_limit cfg db now <;>
    cases h3 : check_weekly_limit cfg db now <;> simp [h1, h2, h3]

/-- Interval check on a successful query, characterised over the most recent
successful publish time. -/
theorem check_interval_ok_iff (cfg : GateConfig) (rows : List HistoryRow) (now : ℤ) :
    check_interval cfg (Except.ok rows) now = true ↔
      (∀ last, lastSuccessTime rows = some last →
        cfg.min_interval_hours * 3600 ≤ now - last) := by
  unfold check_interval
  rcases hl : lastSuccessTime rows with _ | last
  · simp [hl]
  · simp [hl]

/-- Hour of a datetime after an hour replacement with zeroed minute and
second. -/
theorem dtHour_replace (t h' : ℤ) (h0 : 0 ≤ h') (h23 : h' ≤ 23) :
    dtHour (t - t % 86400000000 + h' * 3600000000 + t % 1000000) = h' := by
  unfold dtHour
  omega

/-- The Python-`min`-with-key fold returns a member that minimises the key,
and everything strictly before it in the list has a strictly larger key
(first-wins tie-breaking). -/
theorem minByAbs_foldl_spec (h : ℤ) (ps : List ℤ) : ∀ b : ℤ,
    (ps.foldl (fun best q => if |q - h| < |best - h| then q else best) b) ∈ b :: ps ∧
    (∀ x ∈ b :: ps,
      |(ps.foldl (fun best q => if |q - h| < |best - h| then q else best) b) - h| ≤ |x - h|) ∧
    ∃ pre post,
      b :: ps = pre ++ (ps.foldl (fun best q => if |q - h| < |best - h| then q else best) b) :: post ∧
      ∀ x ∈ pre,
        |(ps.foldl (fun best q => if |q - h| < |best - h| then q else best) b) - h| < |x - h| := by
  induction ps with
  | nil =>
    intro b
    refine ⟨by simp, ?_, [], [], by simp, by simp⟩
    intro x hx
    rw [List.mem_singleton] at hx
    subst hx
    exact le_refl _
  | cons q ps ih =>
    intro b
    simp only [List.foldl_cons]
    by_cases hqb : |q - h| < |b - h|
    · rw [if_pos hqb]
      obtain ⟨hmem, hmin, pre', post', hdec, hpre⟩ := ih q
      set r := ps.foldl (fun best q => if |q - h| < |best - h| then q else best) q with hr
      have hrq : |r - h| ≤ |q - h| := hmin q (List.mem_cons_self _ _)
      refine ⟨?_, ?_, b :: pre', post', ?_, ?_⟩
      · rcases List.mem_cons.mp hmem with h1 | h1
        · rw [h1]
          exact List.mem_cons_of_mem _ (List.mem_cons_self _ _)
        · exact List.mem_cons_of_mem _ (List.mem_cons_of_mem _ h1)
      · intro x hx
        rcases List.mem_cons.mp hx with h1 | h1
        · subst h1
          exact le_of_lt (lt_of_le_of_lt hrq hqb)
        · exact hmin x h1
      · rw [List.cons_append, ← hdec]
      · intro x hx
        rcases List.mem_cons.mp hx with h1 | h1
        · subst h1
          exact lt_of_le_of_lt hrq hqb
        · exact hpre x h1
    · rw [if_neg hqb]
      have hbq : |b - h| ≤ |q - h| := not_lt.mp hqb
      obtain ⟨hmem, hmin, pre', post', hdec, hpre⟩ := ih b
      set r := ps.foldl (fun best q => if |q - h| < |best - h| then q else best) b with hr
      have hrb : |r - h| ≤ |b - h| := hmin b (List.mem_cons_self _ _)
      refine ⟨?_, ?_, ?_⟩
      · rcases List.mem_cons.mp hmem with h1 | h1
        · rw [h1]
          exact List.mem_cons_self _ _
        · exact List.mem_cons_of_mem _ (List.mem_cons_of_mem _ h1)
      · intro x hx
        rcases List.mem_cons.mp hx with h1 | h1
        · subst h1
          exact hmin x (List.mem_cons_self _ _)
        · rcases List.mem_cons.mp h1 with h2 | h2
          · subst h2
            exact le_trans hrb hbq
          · exact hmin x (List.mem_cons_of_mem _ h2)
      · cases pre' with
        | nil =>
          rw [List.nil_append] at hdec
          injection hdec with h1 h2
          refine ⟨[], q :: ps, ?_, by simp⟩
          rw [List.nil_append, ← h1]
        | cons x pre'' =>
          rw [List.cons_append] at hdec
          injection hdec with h1 h2
          have hxb : |r - h| < |b - h| := by
            have hx := hpre x (List.mem_cons_self _ _)
            rw [← h1] at hx
            exact hx
          refine ⟨b :: q :: pre'', post', ?_, ?_⟩
          · rw [List.cons_append, List.cons_append, ← h2]
          · intro z hz
            rcases List.mem_cons.mp hz with h3 | h3
            · subst h3
              exact hxb
            · rcases List.mem_cons.mp h3 with h4 | h4
              · subst h4
                exact lt_of_lt_of_le hxb hbq
              · exact hpre z (List.mem_cons_of_mem _ h4)

/-- One `check_duplicate` fold step updates the running title maximum. -/
theorem dupStep_fst (tn bn : String) (st : ℚ × ℚ × String) (p : PostRow) :
    (dupStep tn bn st p).1 = max st.1 (calculate_similarity tn (normalize_text p.title)) := by
  simp only [dupStep]
  rcases lt_or_le st.1 (calculate_similarity tn (normalize_text p.title)) with h1 | h1
  · rw [if_pos h1]
    rcases lt_or_le st.2.1
      (calculate_similarity bn (normalize_text (String.mk (p.body.data.take 1000)))) with h2 | h2
    · rw [if_pos h2]
      exact (max_eq_right (le_of_lt h1)).symm
    · rw [if_neg (not_lt.mpr h2)]
      exact (max_eq_right (le_of_lt h1)).symm
  · rw [if_neg (not_lt.mpr h1)]
    rcases lt_or_le st.2.1
      (calculate_similarity bn (normalize_text (String.mk (p.body.data.take 1000)))) with h2 | h2
    · rw [if_pos h2]
      exact (max_eq_left h1).symm
    · rw [if_neg (not_lt.mpr h2)]
      exact (max_eq_left h1).symm

/-- One `check_duplicate` fold step updates the running body maximum. -/
theorem dupStep_snd (tn bn : String) (st : ℚ × ℚ × String) (p : PostRow) :
    (dupStep tn bn st p).2.1 =
      max st.2.1 (calculate_similarity bn (normalize_text (String.mk (p.body.data.take 1000)))) := by
  simp only [dupStep]
  rcases lt_or_le st.1 (calculate_similarity tn (normalize_text p.title)) with h1 | h1
  · rw [if_pos h1]
    rcases lt_or_le st.2.1
      (calculate_similarity bn (normalize_text (String.mk (p.body.data.take 1000)))) with h2 | h2
    · rw [if_pos h2]
      exact (max_eq_right (le_of_lt h2)).symm
    · rw [if_neg (not_lt.mpr h2)]
      exact (max_eq_left h2).symm
  · rw [if_neg (not_lt.mpr h1)]
    rcases lt_or_le st.2.1
      (calculate_similarity bn (normalize_text (String.mk (p.body.data.take 1000)))) with h2 | h2
    · rw [if_pos h2]
      exact (max_eq_right (le_of_lt h2)).symm
    · rw [if_neg (not_lt.mpr h2)]
      exact (max_eq_left h2).symm

/-- The title maximum of the `check_duplicate` fold is a `max`-fold. -/
theorem foldl_dupStep_fst (tn bn : String) (l : List PostRow) : ∀ st : ℚ × ℚ × String,
    (l.foldl (dupStep tn bn) st).1 =
      (l.map (fun p => calculate_similarity tn (normalize_text p.title))).foldl max st.1 := by
  induction l with
  | nil => intro st; rfl
  | cons p ps ih =>
    intro st
    simp only [List.foldl_cons, List.map_cons]
    rw [ih, dupStep_fst]

/-- The body maximum of the `check_duplicate` fold is a `max`-fold. -/
theorem foldl_dupStep_snd (tn bn : String) (l : List PostRow) : ∀ st : ℚ × ℚ × String,
    (l.foldl (dupStep tn bn) st).2.1 =
      (l.map (fun p =>
        calculate_similarity bn (normalize_text (String.mk (p.body.data.take 1000))))).foldl
        max st.2.1 := by
  induction l with
  | nil => intro st; rfl
  | cons p ps ih =>
    intro st
    simp only [List.foldl_cons, List.map_cons]
    rw [ih, dupStep_snd]

/-- Specialisation of `foldl_dupStep_fst` to the zero initial state. -/
theorem foldl_dupStep_fst_zero (tn bn : String) (l : List PostRow) :
    (l.foldl (dupStep tn bn) (0, 0, "")).1 =
      (l.map (fun p => calculate_similarity tn (normalize_text p.title))).foldl max 0 := by
  simpa using foldl_dupStep_fst tn bn l (0, 0, "")

/-- Specialisation of `foldl_dupStep_snd` to the zero initial state. -/
theorem foldl_dupStep_snd_zero (tn bn : String) (l : List PostRow) :
    (l.foldl (dupStep tn bn) (0, 0, "")).2.1 =
      (l.map (fun p =>
        calculate_similarity bn (normalize_text (String.mk (p.body.data.take 1000))))).foldl max 0 := by
  simpa using foldl_dupStep_snd tn bn l (0, 0, "")

/-- The duplicate-check query returns at most 50 posts. -/
theorem duplicateQuery_length_le (corpus : List PostRow) (exclude : Option ℤ) :
    (duplicateQuery corpus exclude).length ≤ 50 := by
  unfold duplicateQuery
  exact List.length_take_le _ _

/-- Every post returned by the duplicate-check query has one of the three
queried statuses. -/
theorem duplicateQuery_status (corpus : List PostRow) (exclude : Option ℤ) :
    ∀ p ∈ duplicateQuery corpus exclude, duplicateStatusOk p = true := by
  intro p hp
  rcases exclude with _ | eid
  · simp only [duplicateQuery] at hp
    have hp' := List.take_subset _ _ hp
    exact (List.mem_filter.mp hp').2
  · simp only [duplicateQuery] at hp
    by_cases h0 : eid ≠ 0
    · rw [if_pos h0] at hp
      have hp' := List.take_subset _ _ hp
      have hf := (List.mem_filter.mp hp').2
      exact ((Bool.and_eq_true _ _).mp hf).1
    · rw [if_neg h0] at hp
      have hp' := List.take_subset _ _ hp
      exact (List.mem_filter.mp hp').2

/-!  Claim theorems -/

set_option maxRecDepth 1000000

/-- Claim C1: for every sequence of issues added to a `HumanReviewResult`
(with the documented non-negative severities), the final score equals
`max 0 (100 - sum of severities)`, and `needs_rewrite` holds exactly when
that score is strictly below 80. -/
theorem C1_score_invariant (adds : List Issue)
    (h : ∀ i ∈ adds, 0 ≤ i.severity) :
    (adds.foldl (fun r i => r.add_issue i.category i.detail i.severity)
      HumanReviewResult.init).score = max 0 (100 - (adds.map Issue.severity).sum) ∧
    ((adds.foldl (fun r i => r.add_issue i.category i.detail i.severity)
      HumanReviewResult.init).needs_rewrite = true ↔
      max 0 (100 - (adds.map Issue.severity).sum) < 80) := by
  have hs := foldl_add_issue_score adds HumanReviewResult.init
    (by simp [HumanReviewResult.init]) h
  refine ⟨by simpa [HumanReviewResult.init] using hs, ?_⟩
  simp only [HumanReviewResult.needs_rewrite, decide_eq_true_eq]
  rw [hs]
  simp [HumanReviewResult.init]

/-- Witness for C1 at a concrete issue list with severities 30 and 90:
score floors at 0 and `needs_rewrite` holds. -/
theorem C1_score_invariant_witness :
    (([⟨"과잉 친절", "d1", 30⟩, ⟨"개인성 부재", "d2", 90⟩] : List Issue).foldl
      (fun r i => r.add_issue i.category i.detail i.severity)
      HumanReviewResult.init).score =
      max 0 (100 - (([⟨"과잉 친절", "d1", 30⟩, ⟨"개인성 부재", "d2", 90⟩] : List Issue).map
        Issue.severity).sum) ∧
    ((([⟨"과잉 친절", "d1", 30⟩, ⟨"개인성 부재", "d2", 90⟩] : List Issue).foldl
      (fun r i => r.add_issue i.category i.detail i.severity)
      HumanReviewResult.init).needs_rewrite = true ↔
      max 0 (100 - (([⟨"과잉 친절", "d1", 30⟩, ⟨"개인성 부재", "d2", 90⟩] : List Issue).map
        Issue.severity).sum) < 80) :=
  C1_score_invariant _ (by decide)

/-- Claim C2: whatever the external rewrite collaborator returns (modelled
by the `api` parameter), the review returned by `review_and_fix` scores at
least as high as `detect_ai_patterns` on the original body. -/
theorem C2_rewriter_never_degrades (api : Option String)
    (body title keyword : String) (force : Bool) :
    (detect_ai_patterns body).score ≤
      (review_and_fix api body title keyword force).2.score := by
  simp only [review_and_fix]
  split
  · split
    · next h => simpa using le_of_lt h
    · simp
  · simp

/-- Counterexample to claim C3 as stated: on body `aa!! bb` with
`force_rewrite` and a collaborator response `ccc ddd`, a candidate is
produced whose score does not strictly exceed the pre-candidate
(quick-fixed) score, yet `review_and_fix` returns the original body
`aa!! bb`, not the pre-candidate text `aa! bb` the claim prescribes. -/
theorem C3_counterexample :
    quick_fix_patterns "aa!! bb" = "aa! bb" ∧
    humanize_body (some "ccc ddd") (quick_fix_patterns "aa!! bb") "t" ""
      (detect_ai_patterns "aa!! bb") = "ccc ddd" ∧
    ¬ (detect_ai_patterns (quick_fix_patterns "aa!! bb")).score <
        (detect_ai_patterns "ccc ddd").score ∧
    (review_and_fix (some "ccc ddd") "aa!! bb" "t" "" true).1 = "aa!! bb" ∧
    ("aa!! bb" : String) ≠ "aa! bb" :=
  ⟨by decide, by decide, by decide, by decide, by decide⟩

/-- Amended claim C3: in the rewrite branch the candidate is re-scored and
kept only if its score strictly exceeds the score of the original body
(as scored before the quick fixes); otherwise the original body — not the
quick-fixed text — is returned. -/
theorem C3_amended_policy (api : Option String) (body title keyword : String)
    (force : Bool)
    (h : (detect_ai_patterns body).needs_rewrite = true ∨ force = true) :
    (¬ (detect_ai_patterns body).score <
        (detect_ai_patterns (humanize_body api (quick_fix_patterns body) title keyword
          (detect_ai_patterns body))).score →
      review_and_fix api body title keyword force = (body, detect_ai_patterns body)) ∧
    ((detect_ai_patterns body).score <
        (detect_ai_patterns (humanize_body api (quick_fix_patterns body) title keyword
          (detect_ai_patterns body))).score →
      (review_and_fix api body title keyword force).1 =
        humanize_body api (quick_fix_patterns body) title keyword
          (detect_ai_patterns body)) := by
  have hb : ((detect_ai_patterns body).needs_rewrite || force) = true := by
    rcases h with h | h <;> simp [h]
  constructor
  · intro hlt
    simp only [review_and_fix, hb, if_true]
    rw [if_neg hlt]
  · intro hlt
    simp only [review_and_fix, hb, if_true]
    rw [if_pos hlt]

/-- Witness for the amended C3 at the counterexample input: the candidate is
not an improvement over the original body, so the original body comes back
together with its original review. -/
theorem C3_amended_policy_witness :
    ¬ (detect_ai_patterns "aa!! bb").score <
        (detect_ai_patterns (humanize_body (some "ccc ddd") (quick_fix_patterns "aa!! bb")
          "t" "" (detect_ai_patterns "aa!! bb"))).score ∧
    review_and_fix (some "ccc ddd") "aa!! bb" "t" "" true =
      ("aa!! bb", detect_ai_patterns "aa!! bb") := by
  have h := C3_amended_policy (some "ccc ddd") "aa!! bb" "t" "" true (Or.inr rfl)
  exact ⟨by decide, h.1 (by decide)⟩

/-- Counterexample to claim C4 as stated: on body `apple banana` with
keyword `apple`, `calculate_score` reports density 50 (one of two words
contains the keyword), while the claimed character-length formula gives
125/3 ≈ 41.67. -/
theorem C4_counterexample :
    (calculate_score "t" "apple banana" "apple").keyword_density = 50 ∧
    specKeywordDensity "apple banana" "apple" = 125 / 3 ∧
    roundQ 2 (specKeywordDensity "apple banana" "apple") = 4167 / 100 ∧
    (50 : ℚ) ≠ 125 / 3 ∧ (50 : ℚ) ≠ 4167 / 100 := by
  have hspec : specKeywordDensity "apple banana" "apple" = 125 / 3 := by
    unfold specKeywordDensity
    rw [if_neg (by decide : ¬ "apple banana".data.length = 0)]
    rw [show countSub "apple".data "apple banana".data = 1 from by decide]
    rw [show "apple".length = 5 from by decide]
    rw [show "apple banana".data.length = 12 from by decide]
    norm_num
  refine ⟨by decide, hspec, ?_, by norm_num, by norm_num⟩
  rw [hspec, show (125 / 3 : ℚ) = mkRat 125 3 by rw [mkRat_as_div]; norm_num]
  rw [show roundQ 2 (mkRat 125 3) = mkRat 4167 100 from by decide, mkRat_as_div]
  norm_num

/-- Amended claim C4: the density `calculate_score` reports is
`get_keyword_density`: the fraction of whitespace-separated words of the
normalized body that contain the keyword case-insensitively, times 100,
rounded to two decimals (0 when there are no words). -/
theorem C4_amended_density (title body keyword : String) :
    (calculate_score title body keyword).keyword_density =
      get_keyword_density body keyword ∧
    get_keyword_density body keyword =
      (if wordsOf (body.data.filter keepDensityChar) = [] then 0
       else roundQ 2
         (((wordsOf (body.data.filter keepDensityChar)).countP
             (fun w => containsSub (lowerList keyword.data) (lowerList w)) : ℚ) * 100 /
           ((wordsOf (body.data.filter keepDensityChar)).length : ℚ))) := by
  constructor
  · simp only [calculate_score, check_c_rank]
    exact roundQ_two_get_kd body keyword
  · simp only [get_keyword_density]
    split
    · rfl
    · congr 1
      rw [qMul_eq, mkRat_as_div, mkRat_as_div]
      push_cast
      ring

/-- Claim C5: over any successfully queried history, `can_publish` permits
exactly when the interval, daily and weekly conditions all hold; with a
success exactly `min_interval_hours` ago the gate opens, and one second
later than that boundary it refuses. -/
theorem C5_can_publish_gate (cfg : GateConfig) (rows : List HistoryRow) (now : ℤ) :
    ((can_publish cfg (Except.ok rows) now).1 = true ↔
      ((∀ last, lastSuccessTime rows = some last →
          cfg.min_interval_hours * 3600 ≤ now - last) ∧
       ((rows.countP (fun r => r.publish_status = "success" &&
          r.published_at / 86400 = now / 86400) : ℤ) < cfg.max_posts_per_day) ∧
       ((rows.countP (fun r => r.publish_status = "success" &&
          now - 7 * 86400 ≤ r.published_at) : ℤ) < cfg.max_posts_per_week))) ∧
    (can_publish defaultGateConfig
      (Except.ok [⟨1000000 - 14400, "success"⟩]) 1000000).1 = true ∧
    (can_publish defaultGateConfig
      (Except.ok [⟨1000000 - 14400 + 1, "success"⟩]) 1000000).1 = false := by
  refine ⟨?_, by decide, by decide⟩
  rw [can_publish_fst, Bool.and_eq_true, Bool.and_eq_true, check_interval_ok_iff]
  simp [check_daily_limit, check_weekly_limit]

/-- Witness for C5 at a concrete one-row history exactly four hours old. -/
theorem C5_can_publish_gate_witness :
    (can_publish defaultGateConfig (Except.ok [⟨985600, "success"⟩]) 1000000).1 = true := by
  have h := (C5_can_publish_gate defaultGateConfig [⟨985600, "success"⟩] 1000000).1
  refine h.mpr ⟨?_, by decide, by decide⟩
  intro last hl
  rw [show lastSuccessTime [⟨985600, "success"⟩] = some 985600 from rfl] at hl
  injection hl with h2
  subst h2
  decide

/-- Claim C6: when the history query fails, each of the interval, daily and
weekly checks returns true (fail-open) instead of propagating the error. -/
theorem C6_history_error_fail_open (cfg : GateConfig) (e : String) (now : ℤ) :
    check_interval cfg (Except.error e) now = true ∧
    check_daily_limit cfg (Except.error e) now = true ∧
    check_weekly_limit cfg (Except.error e) now = true :=
  ⟨rfl, rfl, rfl⟩

/-- Claim C7 (evaluation at the failing input): with a zero rotation quota
(and also with a negative one) the category rotation silently returns a
category instead of raising the distinct error the specification calls
for. -/
theorem C7_zero_quota_silently_defaults :
    get_current_publish_category ["A", "B", "C"] 0 (fun _ => 7) 21 = Except.ok "A" ∧
    get_current_publish_category ["A", "B", "C"] (-1) (fun _ => 7) 5 = Except.ok "B" :=
  ⟨rfl, rfl⟩

/-- Counterexample to claim C8 as stated: a corpus whose only post is a
`rejected` post with an identical title is a duplicate under the claim's
any-status query, but `check_duplicate` filters that status out and reports
no duplicate. -/
theorem C8_counterexample :
    specIsDuplicate "hello world" "abc" [⟨1, "hello world", "xyz", "rejected"⟩] none = true ∧
    (check_duplicate "hello world" "abc"
      [⟨1, "hello world", "xyz", "rejected"⟩] none).is_duplicate = false :=
  ⟨by decide, by decide⟩

/-- Amended claim C8: `check_duplicate` compares against up to the 50 most
recent posts with status draft, approved or published (rejected posts are
excluded), excluding the current post; it reports a duplicate exactly when
the maximal title similarity reaches 0.6 or the maximal body-prefix
similarity reaches 0.4, with the title reason taking precedence. -/
theorem C8_amended_duplicate (title body : String) (corpus : List PostRow)
    (exclude : Option ℤ) :
    ((check_duplicate title body corpus exclude).is_duplicate =
      (decide (3 / 5 ≤ ((duplicateQuery corpus exclude).map (fun p =>
          calculate_similarity (normalize_text title) (normalize_text p.title))).foldl max 0) ||
       decide (2 / 5 ≤ ((duplicateQuery corpus exclude).map (fun p =>
          calculate_similarity (normalize_text (String.mk (body.data.take 1000)))
            (normalize_text (String.mk (p.body.data.take 1000))))).foldl max 0)) ∧
     (3 / 5 ≤ ((duplicateQuery corpus exclude).map (fun p =>
          calculate_similarity (normalize_text title) (normalize_text p.title))).foldl max 0 →
       (check_duplicate title body corpus exclude).reason =
         "제목 유사도 " ++ toString (roundHalfEven
           (qMul (((duplicateQuery corpus exclude).map (fun p =>
             calculate_similarity (normalize_text title) (normalize_text p.title))).foldl max 0)
             (mkRat 100 1))) ++
           "% (기준: 60%)") ∧
     (¬ 3 / 5 ≤ ((duplicateQuery corpus exclude).map (fun p =>
          calculate_similarity (normalize_text title) (normalize_text p.title))).foldl max 0 →
      2 / 5 ≤ ((duplicateQuery corpus exclude).map (fun p =>
          calculate_similarity (normalize_text (String.mk (body.data.take 1000)))
            (normalize_text (String.mk (p.body.data.take 1000))))).foldl max 0 →
       (check_duplicate title body corpus exclude).reason =
         "본문 유사도 " ++ toString (roundHalfEven
           (qMul (((duplicateQuery corpus exclude).map (fun p =>
             calculate_similarity (normalize_text (String.mk (body.data.take 1000)))
               (normalize_text (String.mk (p.body.data.take 1000))))).foldl max 0)
             (mkRat 100 1))) ++
           "% (기준: 40%)")) ∧
    (duplicateQuery corpus exclude).length ≤ 50 ∧
    (∀ p ∈ duplicateQuery corpus exclude, duplicateStatusOk p = true) := by
  have e35 : (mkRat 3 5 : ℚ) = 3 / 5 := by rw [mkRat_as_div]; norm_num
  have e25 : (mkRat 2 5 : ℚ) = 2 / 5 := by rw [mkRat_as_div]; norm_num
  refine ⟨?_, duplicateQuery_length_le _ _, duplicateQuery_status _ _⟩
  by_cases he : duplicateQuery corpus exclude = []
  · have hT : ((duplicateQuery corpus exclude).map (fun p =>
        calculate_similarity (normalize_text title) (normalize_text p.title))).foldl max 0 = 0 := by
      rw [he]; rfl
    have hB : ((duplicateQuery corpus exclude).map (fun p =>
        calculate_similarity (normalize_text (String.mk (body.data.take 1000)))
          (normalize_text (String.mk (p.body.data.take 1000))))).foldl max 0 = 0 := by
      rw [he]; rfl
    rw [hT, hB]
    simp only [check_duplicate]
    rw [if_pos he]
    refine ⟨?_, ?_, ?_⟩
    · rw [decide_eq_false (by norm_num : ¬ (3 / 5 : ℚ) ≤ 0),
        decide_eq_false (by norm_num : ¬ (2 / 5 : ℚ) ≤ 0)]
      rfl
    · intro habs; norm_num at habs
    · intro _ habs; norm_num at habs
  · simp only [check_duplicate]
    rw [if_neg he]
    rw [foldl_dupStep_fst_zero, foldl_dupStep_snd_zero, e35, e25]
    rcases le_or_lt (3 / 5 : ℚ)
      (((duplicateQuery corpus exclude).map (fun p =>
        calculate_similarity (normalize_text title) (normalize_text p.title))).foldl max 0) with h1 | h1
    · rw [if_pos h1]
      refine ⟨?_, fun _ => rfl, fun habs _ => absurd h1 habs⟩
      rw [decide_eq_true h1]
      rfl
    · rw [if_neg (not_le.mpr h1)]
      rcases le_or_lt (2 / 5 : ℚ)
        (((duplicateQuery corpus exclude).map (fun p =>
          calculate_similarity (normalize_text (String.mk (body.data.take 1000)))
            (normalize_text (String.mk (p.body.data.take 1000))))).foldl max 0) with h2 | h2
      · rw [if_pos h2]
        refine ⟨?_, fun habs => absurd habs (not_le.mpr h1), fun _ _ => rfl⟩
        rw [decide_eq_true h2, decide_eq_false (not_le.mpr h1)]
        rfl
      · rw [if_neg (not_le.mpr h2)]
        refine ⟨?_, fun habs => absurd habs (not_le.mpr h1),
          fun _ habs => absurd habs (not_le.mpr h2)⟩
        rw [decide_eq_false (not_le.mpr h1), decide_eq_false (not_le.mpr h2)]
        rfl

/-- Witness for the amended C8: a single `draft` corpus post with an
identical title is reported as a duplicate. -/
theorem C8_amended_duplicate_witness :
    (check_duplicate "hello world" "abc"
      [⟨1, "hello world", "xyz", "draft"⟩] none).is_duplicate = true := by
  have h := C8_amended_duplicate "hello world" "abc"
    [⟨1, "hello world", "xyz", "draft"⟩] none
  rw [h.1.1]
  rw [show (3 : ℚ) / 5 = mkRat 3 5 from by rw [mkRat_as_div]; norm_num,
    show (2 : ℚ) / 5 = mkRat 2 5 from by rw [mkRat_as_div]; norm_num]
  decide

/-- Claim C9 (helper): with the empty keyword the lead-placement check
scores the full 25 points for any title and body, because the empty string
is contained in every string. -/
theorem check_ai_briefing_empty (title body : String) :
    check_ai_briefing title body "" = 25 := by
  unfold check_ai_briefing
  have he : lowerList "".data = [] := rfl
  rw [he]
  simp only [containsSub_nil, eq_self_iff_true, if_true, and_true]
  rcases hm : reMatchAt firstSentenceRE body.data with _ | rem
  · show min (25 : ℚ) (qAdd (qAdd 10 15) 0) = 25
    decide
  · dsimp only
    split <;> decide

/-- Claim C9: `calculate_score` with the empty keyword always reports the
full 25 AI.BRIEFING points. -/
theorem C9_empty_keyword_full_briefing (title body : String) :
    (calculate_score title body "").ai_briefing_score = 25 := by
  simp only [calculate_score]
  exact check_ai_briefing_empty title body

/-- Claim C10: with a non-empty list of valid preferred hours, the time
returned by `add_gaussian_delay` keeps the jittered time when its hour is
preferred; otherwise the hour is replaced by the entry minimising the
absolute hour difference (the first such entry on ties) with minute and
second reset to 0, so the resulting hour is in the preferred set. -/
theorem C10_preferred_hour_snap (cfg : GateConfig) (base delay : ℤ)
    (hne : cfg.preferred_hours ≠ [])
    (hvalid : ∀ p ∈ cfg.preferred_hours, 0 ≤ p ∧ p ≤ 23) :
    (dtHour (base + delay) ∈ cfg.preferred_hours →
      add_gaussian_delay cfg base delay = base + delay) ∧
    (dtHour (base + delay) ∉ cfg.preferred_hours →
      add_gaussian_delay cfg base delay =
        (base + delay) - (base + delay) % 86400000000 +
          pyMinByAbs cfg.preferred_hours (dtHour (base + delay)) * 3600000000 +
          (base + delay) % 1000000 ∧
      dtHour (add_gaussian_delay cfg base delay) =
        pyMinByAbs cfg.preferred_hours (dtHour (base + delay)) ∧
      pyMinByAbs cfg.preferred_hours (dtHour (base + delay)) ∈ cfg.preferred_hours ∧
      (∀ q ∈ cfg.preferred_hours,
        |pyMinByAbs cfg.preferred_hours (dtHour (base + delay)) - dtHour (base + delay)| ≤
          |q - dtHour (base + delay)|) ∧
      ∃ pre post,
        cfg.preferred_hours =
          pre ++ pyMinByAbs cfg.preferred_hours (dtHour (base + delay)) :: post ∧
        ∀ q ∈ pre,
          |pyMinByAbs cfg.preferred_hours (dtHour (base + delay)) - dtHour (base + delay)| <
            |q - dtHour (base + delay)|) := by
  obtain ⟨p, ps, hcons⟩ : ∃ p ps, cfg.preferred_hours = p :: ps := by
    cases hl : cfg.preferred_hours with
    | nil => exact absurd hl hne
    | cons p ps => exact ⟨p, ps, rfl⟩
  constructor
  · intro hin
    have hc : cfg.preferred_hours.contains (dtHour (base + delay)) = true := by
      simpa [List.contains] using List.elem_iff.mpr hin
    simp only [add_gaussian_delay]
    rw [hc]
    simp
  · intro hnot
    have hc : ¬ cfg.preferred_hours.contains (dtHour (base + delay)) = true := by
      intro h
      exact hnot (List.elem_iff.mp (by simpa [List.contains] using h))
    rw [hcons] at hvalid hnot hc ⊢
    have hfold : pyMinByAbs (p :: ps) (dtHour (base + delay)) =
        ps.foldl (fun best q =>
          if |q - dtHour (base + delay)| < |best - dtHour (base + delay)| then q
          else best) p := rfl
    obtain ⟨hmem, hmin, pre, post, hdec, hpre⟩ :=
      minByAbs_foldl_spec (dtHour (base + delay)) ps p
    rw [← hfold] at hmem hmin hdec hpre
    obtain ⟨h0, h23⟩ := hvalid _ hmem
    have hrange : ¬ (pyMinByAbs (p :: ps) (dtHour (base + delay)) < 0 ∨
        23 < pyMinByAbs (p :: ps) (dtHour (base + delay))) := by omega
    have hrep : dtReplaceHM0S0 (base + delay)
        (pyMinByAbs (p :: ps) (dtHour (base + delay))) =
        Except.ok ((base + delay) - (base + delay) % 86400000000 +
          pyMinByAbs (p :: ps) (dtHour (base + delay)) * 3600000000 +
          (base + delay) % 1000000) := by
      unfold dtReplaceHM0S0
      rw [if_neg hrange]
    have hval : add_gaussian_delay cfg base delay =
        (base + delay) - (base + delay) % 86400000000 +
          pyMinByAbs (p :: ps) (dtHour (base + delay)) * 3600000000 +
          (base + delay) % 1000000 := by
      simp only [add_gaussian_delay]
      rw [hcons]
      rw [if_neg hc]
      show (match dtReplaceHM0S0 (base + delay)
          (pyMinByAbs (p :: ps) (dtHour (base + delay))) with
        | Except.ok t => t
        | Except.error _ => base) = _
      rw [hrep]
    refine ⟨hval, ?_, hmem, hmin, pre, post, hdec, hpre⟩
    rw [hval]
    exact dtHour_replace _ _ h0 h23

/-- Witness for C10: jitter moving the base time to hour 11 snaps to the
preferred hour 9 (the closest of 9, 15, 20) with minute and second zeroed. -/
theorem C10_preferred_hour_snap_witness :
    defaultGateConfig.preferred_hours ≠ [] ∧
    (∀ p ∈ defaultGateConfig.preferred_hours, 0 ≤ p ∧ p ≤ 23) ∧
    dtHour (0 + 39600000000) ∉ defaultGateConfig.preferred_hours ∧
    add_gaussian_delay defaultGateConfig 0 39600000000 = 32400000000 ∧
    dtHour (add_gaussian_delay defaultGateConfig 0 39600000000) = 9 := by
  have h := C10_preferred_hour_snap defaultGateConfig 0 39600000000 (by decide) (by decide)
  have h2 := h.2 (by decide)
  refine ⟨by decide, by decide, by decide, ?_, ?_⟩
  · rw [h2.1]
    decide
  · rw [h2.2.1]
    decide

end NBA
